import Mathlib

/-!
Shallow embedding of the V&V automation backend (vv_backend_api) and proofs
about its specification claims.

The embedding follows the Python source file by file:
- app/services/llm_service.py   : LLMService (mock generation backend)
- app/services/storage_service.py : StorageService path layout
- app/services/execution_service.py : ExecutionService.run_scripts
- app/routes/upload.py          : CSV normalization
- app/routes/api.py             : endpoint handlers over an explicit Db state
- app/db/models.py              : row types

Machine integers are modelled as Nat/Int; timestamps as abstract Nat ticks;
the external subprocess is an oracle `exec : List String -> Int` returning an
exit code; the SQL session is an explicit `Db` record threaded through the
handlers.
-/

set_option maxRecDepth 100000

namespace VV

/-! Section: Row types (app/db/models.py) -/

/-- SRS row: id, title, optional description, optional content. -/
structure SRS where
  id : Nat
  title : String
  description : Option String
  content : Option String
deriving Repr, DecidableEq

/-- TestCase row: id, owning SRS id, name, optional description/priority/tags. -/
structure TestCase where
  id : Nat
  srs_id : Nat
  name : String
  description : Option String
  priority : Option String
  tags : Option String
deriving Repr, DecidableEq

/-- Script row: id, owning TestCase id, language, framework, content, file path. -/
structure Script where
  id : Nat
  test_case_id : Nat
  language : String
  framework : String
  content : Option String
  file_path : Option String
deriving Repr, DecidableEq

/-- Run row: id, label, status, start/finish timestamps, triggering actor,
and the created_at timestamp from TimestampMixin. -/
structure Run where
  id : Nat
  label : Option String
  status : String
  started_at : Option Nat
  finished_at : Option Nat
  triggered_by : Option String
  created_at : Nat
deriving Repr, DecidableEq

/-- TestResult row: owning run and script ids, outcome, optional duration,
message and artifacts path. -/
structure TestResult where
  run_id : Nat
  script_id : Nat
  outcome : String
  duration_ms : Option Nat
  message : String
  artifacts_path : Option String
deriving Repr, DecidableEq

/-- Database state: the row sets of the five tables. -/
structure Db where
  srsRows : List SRS
  testCases : List TestCase
  scripts : List Script
  runs : List Run
  results : List TestResult
deriving Repr, DecidableEq

/-! Section: LLMService (app/services/llm_service.py) -/

/-- A test-case draft as returned by `generate_test_cases`
(a dict with name/description/priority/tags). -/
structure TestCaseDraft where
  name : String
  description : String
  priority : String
  tags : String
deriving Repr, DecidableEq

/-- The dict passed to `generate_script` (keys may be absent, hence Option). -/
structure TestCaseInfo where
  name : Option String
  description : Option String
  priority : Option String
  tags : Option String
deriving Repr, DecidableEq

/-- LLMService configuration read from the environment:
`self.provider` and `self.mock` (llm_service.py lines 15-19). -/
structure LLMService where
  provider : String
  mock : Bool
deriving Repr, DecidableEq

/-- Embeds `LLMService.generate_test_cases` (llm_service.py lines 22-48). -/
def LLMService.generate_test_cases (svc : LLMService)
    (srs_title srs_content : String) : List TestCaseDraft :=
  if svc.mock || svc.provider == "mock" then
    [ { name := "Verify title presence: " ++ srs_title,
        description := "Ensure the application displays the correct title on the homepage.",
        priority := "P1",
        tags := "ui,smoke" },
      { name := "Check login flow",
        description := "User can login with valid credentials and reach dashboard.",
        priority := "P0",
        tags := "auth,critical" } ]
  else
    [ { name := "Sample LLM Case",
        description := "LLM provider not configured; returning placeholder.",
        priority := "P2",
        tags := "placeholder" } ]

/-- Python `str.lower()` (character-wise lower-casing). -/
def pyLower (s : String) : String :=
  ⟨s.data.map Char.toLower⟩

/-- Python `str.replace(old, new)` for a one-character `old` and a
one-character `new`: map every occurrence. -/
def pyReplaceChar (s : String) (old new : Char) : String :=
  ⟨s.data.map (fun c => if c = old then new else c)⟩

/-- Python `str.replace(old, "")` for a one-character `old`: delete every
occurrence. -/
def pyDeleteChar (s : String) (old : Char) : String :=
  ⟨s.data.filter (fun c => c ≠ old)⟩

/-- The slug computed in mock mode of `generate_script`
(llm_service.py line 55):
`test_case.get("name", "test_case").lower().replace(" ", "_").replace(":", "")`. -/
def name_slug (tc : TestCaseInfo) : String :=
  pyDeleteChar (pyReplaceChar (pyLower (tc.name.getD "test_case")) ' ' '_') ':'

/-- The fixed script template of mock-mode `generate_script`
(llm_service.py lines 56-68), parameterized by the name slug. -/
def scriptTemplate (slug : String) : String :=
  "import pytest\nfrom playwright.sync_api import sync_playwright\n\n\n@pytest.mark.parametrize(\"url\", [\"https://example.com\"])\ndef test_"
    ++ slug
    ++ "(url):\n    with sync_playwright() as p:\n        browser = p.chromium.launch()\n        page = browser.new_page()\n        page.goto(url)\n        assert page.title() is not None\n        browser.close()\n"

/-- Embeds `LLMService.generate_script` (llm_service.py lines 51-70). -/
def LLMService.generate_script (svc : LLMService) (test_case : TestCaseInfo) : String :=
  if svc.mock || svc.provider == "mock" then
    scriptTemplate (name_slug test_case)
  else
    "# Placeholder script for: " ++ (test_case.name.getD "Unnamed") ++ "\n"

/-! Section: Storage paths (app/services/storage_service.py) -/

/-- POSIX `os.path.join` for two components: absolute second component wins,
an empty or separator-terminated first component is not given another
separator, otherwise a single separator is inserted. -/
def pathJoin (a b : String) : String :=
  if b.data.head? = some '/' then b
  else if a = "" then b
  else if a.data.getLast? = some '/' then a ++ b
  else a ++ "/" ++ b

/-- StorageService: base data directory (storage_service.py line 20). -/
structure StorageService where
  base : String
deriving Repr, DecidableEq

/-- Embeds `StorageService.runs_dir` (storage_service.py lines 33-36);
the `os.makedirs` side effect is not part of the path value. -/
def StorageService.runs_dir (s : StorageService) : String :=
  pathJoin s.base "runs"

/-- Embeds `StorageService.run_dir` (storage_service.py lines 51-55). -/
def StorageService.run_dir (s : StorageService) (run_id : Nat) : String :=
  pathJoin s.runs_dir ("run_" ++ Nat.repr run_id)

/-- Embeds `StorageService.run_artifact` (storage_service.py lines 58-60). -/
def StorageService.run_artifact (s : StorageService) (run_id : Nat)
    (relative_name : String) : String :=
  pathJoin (s.run_dir run_id) relative_name

/-! Section: Execution runner (app/services/execution_service.py) -/

/-- Process environment: the Python interpreter path (`sys.executable`) and
the subprocess oracle, mapping a command line to the exit code obtained by
launching it and waiting for it to finish. -/
structure ExecEnv where
  pythonExe : String
  exec : List String → Int

/-- Embeds `ExecutionService.run_scripts` (execution_service.py lines 18-39):
build the run directory paths, launch one pytest subprocess in quiet mode
over all script paths with `--junitxml` pointed into the run directory,
wait for it, and return (exit code, junit path, log path).  Writing the
combined stdout/stderr stream to the log file is represented by the log
path being handed to the subprocess launch. -/
def ExecutionService.run_scripts (env : ExecEnv) (storage : StorageService)
    (run_id : Nat) (script_paths : List String) : Int × String × String :=
  let run_dir := storage.run_dir run_id
  let junit_xml := pathJoin run_dir "results.xml"
  let log_path := pathJoin run_dir "run.log"
  let cmd := [env.pythonExe, "-m", "pytest", "-q", "--junitxml=" ++ junit_xml]
    ++ script_paths
  let ret := env.exec cmd
  (ret, junit_xml, log_path)

/-! Section: CSV normalization (app/routes/upload.py) -/

/-- Python `str.strip()`: remove leading and trailing whitespace. -/
def pyStrip (s : String) : String :=
  ⟨((s.data.dropWhile Char.isWhitespace).reverse.dropWhile Char.isWhitespace).reverse⟩

/-- Python `" | ".join(cells)`. -/
def joinPipe (cells : List String) : String :=
  String.intercalate " | " cells

/-- Python `(r + [""] * len(header))[:len(header)]` (upload.py line 76). -/
def padTruncate (r : List String) (n : Nat) : List String :=
  (r ++ List.replicate n "").take n

/-- Embeds `_normalize_text_from_csv_bytes` (upload.py lines 56-78), over the row
lists produced by `csv.reader` (the byte decoding and csv dialect parsing
happen before this point and are taken as the input).  Each cell is
stripped, then a header line, a dashes separator line and one line per
data row (padded/truncated to the header width) are joined by newlines. -/
def normalize_text_from_csv_rows (reader_rows : List (List String)) : String :=
  let rows := reader_rows.map (fun r => r.map pyStrip)
  match rows with
  | [] => ""
  | header :: rest =>
    let out_lines : List String :=
      joinPipe header
        :: joinPipe (List.replicate header.length "---")
        :: rest.map (fun r => joinPipe (padTruncate r header.length))
    String.intercalate "\n" out_lines

/-- Embeds `SRSUpload.post` for a `.csv` upload (upload.py lines 157-178): the SRS
row is created with content equal to the normalized table text. -/
def SRSUpload_post_csv (db : Db) (new_id : Nat) (title : String)
    (description : Option String) (reader_rows : List (List String)) : Db × SRS :=
  let srs : SRS := { id := new_id, title := title, description := description,
                     content := some (normalize_text_from_csv_rows reader_rows) }
  ({ db with srsRows := db.srsRows ++ [srs] }, srs)

/-! Section: Endpoint handlers (app/routes/api.py) -/

/-- Response of `POST /api/testcases/generate`: either 404 or the created
TestCase rows. -/
inductive GenResponse
  | notFound
  | ok (created : List TestCase)
deriving Repr, DecidableEq

/-- Assign autoincremented primary keys to the generated drafts, as
`db.add` + `db.flush` does row by row (api.py lines 96-106). -/
def assignTestCaseIds (srs_id next_id : Nat) :
    List TestCaseDraft → List TestCase
  | [] => []
  | c :: cs =>
    { id := next_id, srs_id := srs_id, name := c.name,
      description := some c.description, priority := some c.priority,
      tags := some c.tags }
      :: assignTestCaseIds srs_id (next_id + 1) cs

/-- Embeds `TestCaseGeneration.post` (api.py lines 86-107): look up the SRS by
primary key; on miss return 404 leaving the database unchanged; on hit
generate drafts from (title, content or "") and insert one TestCase row
per draft. -/
def TestCaseGeneration_post (svc : LLMService) (db : Db) (srs_id : Nat)
    (next_id : Nat) : Db × GenResponse :=
  match db.srsRows.find? (fun s => s.id == srs_id) with
  | none => (db, .notFound)
  | some srs =>
    let cases := svc.generate_test_cases srs.title (srs.content.getD "")
    let created := assignTestCaseIds srs.id next_id cases
    ({ db with testCases := db.testCases ++ created }, .ok created)

/-- Body of `POST /api/runs` after schema load: label (load_default None),
script_ids (required), triggered_by (load_default "api"). -/
structure RunCreatePayload where
  label : Option String
  script_ids : List Nat
  triggered_by : String
deriving Repr, DecidableEq

/-- Observable events of the `Runs.post` handler, in program order:
the Run row is created with status "running" and started_at set; the
execution runner is invoked; status and finished_at are finalized; one
TestResult row is added per collected script; the transaction commits. -/
inductive RunEvent
  | createdRunning (started_at : Nat)
  | invokedRunner
  | setFinal (status : String) (finished_at : Nat)
  | addedResult (script_id : Nat)
  | committed
deriving Repr, DecidableEq

/-- Everything observable about one `Runs.post` request. -/
structure RunsPostOut where
  db : Db
  run : Run
  results : List TestResult
  code : Int
  trace : List RunEvent
deriving Repr

/-- Embeds `Runs.post` (api.py lines 164-194).  A Run row is created with status
"running" and started_at = the first clock reading, before the runner is
invoked; the Script rows whose ids are among the requested ids are
collected and their non-null file paths passed to
`ExecutionService.run_scripts`; after the runner returns, the run status
becomes "completed" on exit code zero and "failed" otherwise, finished_at
is set to the second clock reading, and one TestResult row per collected
script is inserted with the common coarse outcome. -/
def Runs_post (env : ExecEnv) (storage : StorageService) (db : Db)
    (payload : RunCreatePayload) (new_run_id : Nat)
    (created_at t_start t_finish : Nat) : RunsPostOut :=
  let run0 : Run :=
    { id := new_run_id, label := payload.label, status := "running",
      started_at := some t_start, finished_at := none,
      triggered_by := some payload.triggered_by, created_at := created_at }
  let scripts := db.scripts.filter (fun s => payload.script_ids.contains s.id)
  let script_paths := scripts.filterMap (fun s => s.file_path)
  let out := ExecutionService.run_scripts env storage new_run_id script_paths
  let code := out.1
  let junit_path := out.2.1
  let log_path := out.2.2
  let final_status := if code = 0 then "completed" else "failed"
  let run1 : Run := { run0 with status := final_status, finished_at := some t_finish }
  let results : List TestResult := scripts.map (fun s =>
    { run_id := new_run_id, script_id := s.id,
      outcome := if code = 0 then "passed" else "failed",
      duration_ms := none,
      message := "See junit: " ++ junit_path,
      artifacts_path := some log_path })
  { db := { db with runs := db.runs ++ [run1], results := db.results ++ results },
    run := run1,
    results := results,
    code := code,
    trace := [RunEvent.createdRunning t_start, RunEvent.invokedRunner,
              RunEvent.setFinal final_status t_finish]
      ++ results.map (fun r => RunEvent.addedResult r.script_id)
      ++ [RunEvent.committed] }

/-- The run picked by `order_by(Run.created_at.desc()).first()`:
the first-encountered row of maximal created_at. -/
def latest_run : List Run → Option Run
  | [] => none
  | r :: rs =>
    match latest_run rs with
    | none => some r
    | some b => if b.created_at > r.created_at then some b else some r

/-- Summary returned by `GET /api/reports/latest`. -/
structure ReportSummary where
  run_id : Nat
  status : String
  passed : Nat
  failed : Nat
  total : Nat
deriving Repr, DecidableEq

/-- Embeds `ReportsLatest.get` (api.py lines 239-251): 404 when no Run exists,
otherwise the pass/fail/total counts of the latest run's TestResult rows. -/
def ReportsLatest_get (db : Db) : Option ReportSummary :=
  match latest_run db.runs with
  | none => none
  | some latest =>
    let results := db.results.filter (fun r => r.run_id == latest.id)
    some { run_id := latest.id, status := latest.status,
           passed := (results.filter (fun r => r.outcome == "passed")).length,
           failed := (results.filter (fun r => r.outcome == "failed")).length,
           total := results.length }

/-! Section: Spec-modelled definitions used to compare against the spec's words -/

/-- The slug the C5 claim describes, following the spec words: the
test-case name lower-cased with spaces and colons stripped (removed). -/
def name_slug_spec (name : String) : String :=
  pyDeleteChar (pyDeleteChar (pyLower name) ' ') ':'

/-! Section: Theorems -/

/-- C3 counterexample: mock-mode `generate_test_cases` is NOT independent
of its input — the first draft's name embeds the SRS title, so the outputs
for titles "A" and "B" (same content "") differ. -/
theorem C3_counterexample :
    LLMService.generate_test_cases { provider := "mock", mock := true } "A" "" ≠
      LLMService.generate_test_cases { provider := "mock", mock := true } "B" "" := by
  decide

/-- C3 (amended): in mock mode, `generate_test_cases` returns exactly two
drafts; the result is independent of the content argument; the draft names
are "Verify title presence: " followed by the title, and the fixed
"Check login flow" — so the output does depend on the title. -/
theorem C3_mock_two_drafts_content_independent (svc : LLMService)
    (t c c2 : String) (h : svc.mock = true ∨ svc.provider = "mock") :
    (svc.generate_test_cases t c).length = 2 ∧
    svc.generate_test_cases t c = svc.generate_test_cases t c2 ∧
    (svc.generate_test_cases t c).map TestCaseDraft.name =
      ["Verify title presence: " ++ t, "Check login flow"] := by
  have hcond : (svc.mock || svc.provider == "mock") = true := by
    rcases h with h | h
    · simp [h]
    · simp [h]
  unfold LLMService.generate_test_cases
  rw [if_pos hcond]
  simp

/-- C3 witness: the amended theorem applied to the mock service at
title "Login", contents "x" and "y". -/
theorem C3_witness :
    (LLMService.generate_test_cases { provider := "mock", mock := true } "Login" "x").length = 2 ∧
    LLMService.generate_test_cases { provider := "mock", mock := true } "Login" "x" =
      LLMService.generate_test_cases { provider := "mock", mock := true } "Login" "y" ∧
    (LLMService.generate_test_cases { provider := "mock", mock := true } "Login" "x").map
        TestCaseDraft.name =
      ["Verify title presence: " ++ "Login", "Check login flow"] :=
  C3_mock_two_drafts_content_independent { provider := "mock", mock := true } "Login" "x" "y"
    (Or.inl rfl)

/-- C5 counterexample: the mock script for the test case named
"Check login flow" is not the template instantiated at the spec's slug
(lower-cased with spaces stripped): the code turns spaces into
underscores instead of removing them. -/
theorem C5_counterexample :
    LLMService.generate_script { provider := "mock", mock := true }
        { name := some "Check login flow", description := none,
          priority := none, tags := none } ≠
      scriptTemplate (name_slug_spec "Check login flow") := by
  decide

/-- C5 (amended): in mock mode, `generate_script` emits the fixed template
instantiated at the slug obtained from the test-case name by lower-casing,
replacing spaces with underscores and stripping colons; the emitted script
contains the fixed URL https://example.com and the non-null page-title
assertion. -/
theorem C5_mock_script_template (svc : LLMService) (tc : TestCaseInfo)
    (h : svc.mock = true ∨ svc.provider = "mock") :
    svc.generate_script tc =
      scriptTemplate
        (pyDeleteChar (pyReplaceChar (pyLower (tc.name.getD "test_case")) ' ' '_') ':') ∧
    (∃ pre post, svc.generate_script tc = pre ++ "https://example.com" ++ post) ∧
    (∃ pre post, svc.generate_script tc = pre ++ "assert page.title() is not None" ++ post) := by
  have hcond : (svc.mock || svc.provider == "mock") = true := by
    rcases h with h | h
    · simp [h]
    · simp [h]
  have hmain : svc.generate_script tc = scriptTemplate (name_slug tc) := by
    unfold LLMService.generate_script
    rw [if_pos hcond]
  refine ⟨hmain, ?_, ?_⟩
  · refine ⟨"import pytest\nfrom playwright.sync_api import sync_playwright\n\n\n@pytest.mark.parametrize(\"url\", [\"",
      "\"])\ndef test_" ++ name_slug tc ++
        "(url):\n    with sync_playwright() as p:\n        browser = p.chromium.launch()\n        page = browser.new_page()\n        page.goto(url)\n        assert page.title() is not None\n        browser.close()\n", ?_⟩
    rw [hmain]
    unfold scriptTemplate
    apply String.ext
    have h1 : ("import pytest\nfrom playwright.sync_api import sync_playwright\n\n\n@pytest.mark.parametrize(\"url\", [\"https://example.com\"])\ndef test_" : String).data =
        ("import pytest\nfrom playwright.sync_api import sync_playwright\n\n\n@pytest.mark.parametrize(\"url\", [\"" : String).data
          ++ ("https://example.com" : String).data ++ ("\"])\ndef test_" : String).data := by
      decide
    simp [String.data_append, h1, List.append_assoc]
  · refine ⟨"import pytest\nfrom playwright.sync_api import sync_playwright\n\n\n@pytest.mark.parametrize(\"url\", [\"https://example.com\"])\ndef test_" ++ name_slug tc ++
        "(url):\n    with sync_playwright() as p:\n        browser = p.chromium.launch()\n        page = browser.new_page()\n        page.goto(url)\n        ",
      "\n        browser.close()\n", ?_⟩
    rw [hmain]
    unfold scriptTemplate
    apply String.ext
    have h2 : ("(url):\n    with sync_playwright() as p:\n        browser = p.chromium.launch()\n        page = browser.new_page()\n        page.goto(url)\n        assert page.title() is not None\n        browser.close()\n" : String).data =
        ("(url):\n    with sync_playwright() as p:\n        browser = p.chromium.launch()\n        page = browser.new_page()\n        page.goto(url)\n        " : String).data
          ++ ("assert page.title() is not None" : String).data
          ++ ("\n        browser.close()\n" : String).data := by
      decide
    simp [String.data_append, h2, List.append_assoc]

/-- C5 witness: the amended theorem applied to the mock service at the
test case named "Check login flow". -/
theorem C5_witness :
    LLMService.generate_script { provider := "mock", mock := true }
        { name := some "Check login flow", description := none,
          priority := none, tags := none } =
      scriptTemplate
        (pyDeleteChar
          (pyReplaceChar
            (pyLower (Option.getD (some "Check login flow") "test_case")) ' ' '_') ':') ∧
    (∃ pre post,
      LLMService.generate_script { provider := "mock", mock := true }
          { name := some "Check login flow", description := none,
            priority := none, tags := none } =
        pre ++ "https://example.com" ++ post) ∧
    (∃ pre post,
      LLMService.generate_script { provider := "mock", mock := true }
          { name := some "Check login flow", description := none,
            priority := none, tags := none } =
        pre ++ "assert page.title() is not None" ++ post) :=
  C5_mock_script_template { provider := "mock", mock := true }
    { name := some "Check login flow", description := none,
      priority := none, tags := none } (Or.inl rfl)

/-- C6: in mock mode, `generate_script` is a pure function of the
test-case name: two test-case dicts with the same name value yield
byte-identical script text, whatever their other fields. -/
theorem C6_script_pure_function_of_name (svc : LLMService)
    (tc1 tc2 : TestCaseInfo) (h : svc.mock = true ∨ svc.provider = "mock")
    (hn : tc1.name = tc2.name) :
    svc.generate_script tc1 = svc.generate_script tc2 := by
  have hcond : (svc.mock || svc.provider == "mock") = true := by
    rcases h with h | h
    · simp [h]
    · simp [h]
  unfold LLMService.generate_script
  rw [if_pos hcond, if_pos hcond]
  unfold name_slug
  rw [hn]

/-- C6 witness: two dicts sharing the name "Check login flow" but with
different descriptions, priorities and tags yield the same script. -/
theorem C6_witness :
    LLMService.generate_script { provider := "mock", mock := true }
        { name := some "Check login flow", description := some "d1",
          priority := some "P0", tags := some "auth" } =
      LLMService.generate_script { provider := "mock", mock := true }
        { name := some "Check login flow", description := some "other",
          priority := some "P2", tags := none } :=
  C6_script_pure_function_of_name { provider := "mock", mock := true }
    { name := some "Check login flow", description := some "d1",
      priority := some "P0", tags := some "auth" }
    { name := some "Check login flow", description := some "other",
      priority := some "P2", tags := none }
    (Or.inl rfl) rfl

/-- Padding/truncating a row to the header width always yields exactly that
many fields. -/
theorem padTruncate_length (r : List String) (n : Nat) :
    (padTruncate r n).length = n := by
  simp [padTruncate]

/-- C4: an SRS created from a `.csv` upload with at least one parsed row
stores as content the newline-join of: the pipe-joined header, a separator
of one "---" per header field, and one pipe-joined line per data row whose
cell list has exactly as many fields as the header (padded with empty
strings / truncated).  All cells are stripped first. -/
theorem C4_csv_upload_table_shape (db : Db) (new_id : Nat) (title : String)
    (description : Option String) (h0 : List String) (rest : List (List String)) :
    (SRSUpload_post_csv db new_id title description (h0 :: rest)).2.content =
      some (String.intercalate "\n"
        (joinPipe (h0.map pyStrip)
          :: joinPipe (List.replicate (h0.map pyStrip).length "---")
          :: rest.map (fun r => joinPipe (padTruncate (r.map pyStrip) (h0.map pyStrip).length)))) ∧
    (∀ r ∈ rest,
      (padTruncate (r.map pyStrip) (h0.map pyStrip).length).length = (h0.map pyStrip).length) ∧
    (SRSUpload_post_csv db new_id title description (h0 :: rest)).1.srsRows =
      db.srsRows ++ [(SRSUpload_post_csv db new_id title description (h0 :: rest)).2] := by
  refine ⟨?_, ?_, rfl⟩
  · simp [SRSUpload_post_csv, normalize_text_from_csv_rows, List.map_map]
    rfl
  · intro r _
    exact padTruncate_length _ _

/-- The empty database, used as a concrete starting state in witnesses. -/
def emptyDb : Db :=
  { srsRows := [], testCases := [], scripts := [], runs := [], results := [] }

/-- C4 witness: the theorem applied to a concrete two-column csv whose
data rows have one field (padded) and three fields (truncated); the
resulting content evaluates to the expected table text. -/
theorem C4_witness :
    (SRSUpload_post_csv emptyDb 1 "t" none
        [["a", " b "], ["1"], ["1", "2", "3"]]).2.content =
      some "a | b\n--- | ---\n1 | \n1 | 2" := by
  have h := C4_csv_upload_table_shape emptyDb 1 "t" none ["a", " b "]
    [["1"], ["1", "2", "3"]]
  rw [h.1]
  decide

/-- C7: generating test cases for an SRS id that matches no SRS row leaves
the database unchanged and returns the not-found response: no TestCase row
is written. -/
theorem C7_generate_missing_srs_is_noop (svc : LLMService) (db : Db)
    (srs_id next_id : Nat) (h : ∀ s ∈ db.srsRows, s.id ≠ srs_id) :
    TestCaseGeneration_post svc db srs_id next_id = (db, GenResponse.notFound) := by
  unfold TestCaseGeneration_post
  have hnone : db.srsRows.find? (fun s => s.id == srs_id) = none := by
    rw [List.find?_eq_none]
    intro s hs
    simpa using h s hs
  rw [hnone]

/-- A database holding a single SRS row with id 1, used in witnesses. -/
def oneSrsDb : Db :=
  { srsRows := [{ id := 1, title := "t", description := none, content := none }],
    testCases := [], scripts := [], runs := [], results := [] }

/-- C7 witness: a database holding only SRS id 1, queried for id 2. -/
theorem C7_witness :
    TestCaseGeneration_post { provider := "mock", mock := true } oneSrsDb 2 1 =
      (oneSrsDb, GenResponse.notFound) :=
  C7_generate_missing_srs_is_noop { provider := "mock", mock := true } oneSrsDb 2 1
    (by decide)

/-! Section: String path helper lemmas -/

/-- Lemma: `pathJoin` inserts exactly one separator when the second component is
relative and the first is nonempty and not separator-terminated. -/
theorem pathJoin_eq (a b : String) (hb : b.data.head? ≠ some '/') (ha : a ≠ "")
    (ha2 : a.data.getLast? ≠ some '/') : pathJoin a b = a ++ "/" ++ b := by
  unfold pathJoin
  rw [if_neg hb, if_neg ha, if_neg ha2]

/-- Appending a nonempty string yields a nonempty string. -/
theorem str_append_ne_empty (a x : String) (hx : x.data ≠ []) : a ++ x ≠ "" := by
  intro h
  have h2 : (a ++ x).data = [] := by rw [h]
  rw [String.data_append] at h2
  rcases List.append_eq_nil.mp h2 with ⟨_, h3⟩
  exact hx h3

/-- The last character of an append is the last character of its nonempty
right part. -/
theorem str_getLast_append (a x : String) (hx : x.data ≠ []) :
    (a ++ x).data.getLast? = x.data.getLast? := by
  rw [String.data_append]
  exact List.getLast?_append_of_ne_nil _ hx

/-- The first character of an append is the first character of its
nonempty left part. -/
theorem str_head_append (x b : String) (hx : x.data ≠ []) :
    (x ++ b).data.head? = x.data.head? := by
  rw [String.data_append]
  cases hd : x.data with
  | nil => exact absurd hd hx
  | cons c cs => simp [hd]

/-- The three nested joins of `run_dir`/`run_artifact` concatenate to
`base/runs/run_<rid>/<x>` when the base is nonempty and not
separator-terminated. -/
theorem storage_run_path_concrete (base : String) (rid : Nat) (x : String)
    (hb1 : base ≠ "") (hb2 : base.data.getLast? ≠ some '/')
    (hr1 : (Nat.repr rid).data ≠ [])
    (hr2 : (Nat.repr rid).data.getLast? ≠ some '/')
    (hx : x.data.head? ≠ some '/') :
    pathJoin (pathJoin (pathJoin base "runs") ("run_" ++ Nat.repr rid)) x =
      ((base ++ "/runs/run_") ++ Nat.repr rid) ++ ("/" ++ x) := by
  have e1 : pathJoin base "runs" = base ++ "/" ++ "runs" :=
    pathJoin_eq _ _ (by decide) hb1 hb2
  have h1ne : (base ++ "/" ++ "runs") ≠ "" := by
    rw [String.append_assoc]
    exact str_append_ne_empty _ _ (by decide)
  have h1last : (base ++ "/" ++ "runs").data.getLast? ≠ some '/' := by
    rw [String.append_assoc, str_getLast_append _ _ (by decide)]
    decide
  have hrunhead : (("run_" ++ Nat.repr rid) : String).data.head? ≠ some '/' := by
    rw [str_head_append _ _ (by decide)]
    decide
  have e2 : pathJoin (base ++ "/" ++ "runs") ("run_" ++ Nat.repr rid) =
      (base ++ "/" ++ "runs") ++ "/" ++ ("run_" ++ Nat.repr rid) :=
    pathJoin_eq _ _ hrunhead h1ne h1last
  have hXne : (("run_" ++ Nat.repr rid) : String).data ≠ [] := by
    rw [String.data_append]
    intro hc
    rcases List.append_eq_nil.mp hc with ⟨h4, _⟩
    revert h4
    decide
  have hslashXne : (("/" ++ ("run_" ++ Nat.repr rid)) : String).data ≠ [] := by
    rw [String.data_append]
    intro hc
    rcases List.append_eq_nil.mp hc with ⟨h4, _⟩
    revert h4
    decide
  have h2ne : ((base ++ "/" ++ "runs") ++ "/" ++ ("run_" ++ Nat.repr rid)) ≠ "" := by
    rw [String.append_assoc]
    exact str_append_ne_empty _ _ hslashXne
  have h2last : ((base ++ "/" ++ "runs") ++ "/" ++ ("run_" ++ Nat.repr rid)).data.getLast?
      ≠ some '/' := by
    rw [String.append_assoc, str_getLast_append _ _ hslashXne,
      str_getLast_append _ _ hXne, str_getLast_append _ _ hr1]
    exact hr2
  have e3 : pathJoin ((base ++ "/" ++ "runs") ++ "/" ++ ("run_" ++ Nat.repr rid)) x =
      ((base ++ "/" ++ "runs") ++ "/" ++ ("run_" ++ Nat.repr rid)) ++ "/" ++ x :=
    pathJoin_eq _ _ hx h2ne h2last
  rw [e1, e2, e3]
  apply String.ext
  have s1 : ("/runs/run_" : String).data =
      ("/" : String).data ++ ("runs" : String).data
        ++ ("/" : String).data ++ ("run_" : String).data := by decide
  simp [String.data_append, s1, List.append_assoc]

/-- C8: `run_scripts` launches one subprocess — the Python interpreter
running pytest in quiet mode (`-q`) with `--junitxml` pointed at
`runs/run_<rid>/results.xml` under the data root, followed by all given
script paths — waits for its exit code, and returns the triple (exit code,
result-file path, log-file path) with the log at `runs/run_<rid>/run.log`. -/
theorem C8_run_scripts_command_and_artifacts (env : ExecEnv)
    (s : StorageService) (rid : Nat) (script_paths : List String)
    (hb1 : s.base ≠ "") (hb2 : s.base.data.getLast? ≠ some '/')
    (hr1 : (Nat.repr rid).data ≠ [])
    (hr2 : (Nat.repr rid).data.getLast? ≠ some '/') :
    ExecutionService.run_scripts env s rid script_paths =
      (env.exec ([env.pythonExe, "-m", "pytest", "-q",
          "--junitxml=" ++ (s.base ++ "/runs/run_" ++ Nat.repr rid ++ "/results.xml")]
            ++ script_paths),
       s.base ++ "/runs/run_" ++ Nat.repr rid ++ "/results.xml",
       s.base ++ "/runs/run_" ++ Nat.repr rid ++ "/run.log") := by
  have keyx : pathJoin (s.run_dir rid) "results.xml" =
      s.base ++ "/runs/run_" ++ Nat.repr rid ++ "/results.xml" := by
    unfold StorageService.run_dir StorageService.runs_dir
    rw [storage_run_path_concrete s.base rid "results.xml" hb1 hb2 hr1 hr2 (by decide)]
    rw [show (("/" ++ "results.xml") : String) = "/results.xml" from rfl]
  have keyl : pathJoin (s.run_dir rid) "run.log" =
      s.base ++ "/runs/run_" ++ Nat.repr rid ++ "/run.log" := by
    unfold StorageService.run_dir StorageService.runs_dir
    rw [storage_run_path_concrete s.base rid "run.log" hb1 hb2 hr1 hr2 (by decide)]
    rw [show (("/" ++ "run.log") : String) = "/run.log" from rfl]
  simp only [ExecutionService.run_scripts, keyx, keyl]

/-- C8 witness: the theorem applied to base directory "./data" and run id
3; the paths evaluate to ./data/runs/run_3/results.xml and run.log. -/
theorem C8_witness :
    ExecutionService.run_scripts { pythonExe := "/usr/bin/python3", exec := fun _ => 0 }
        { base := "./data" } 3 ["s1.py"] =
      ((fun (_ : List String) => (0 : Int))
          (["/usr/bin/python3", "-m", "pytest", "-q",
            "--junitxml=" ++ ("./data" ++ "/runs/run_" ++ Nat.repr 3 ++ "/results.xml")]
              ++ ["s1.py"]),
       "./data" ++ "/runs/run_" ++ Nat.repr 3 ++ "/results.xml",
       "./data" ++ "/runs/run_" ++ Nat.repr 3 ++ "/run.log") :=
  C8_run_scripts_command_and_artifacts
    { pythonExe := "/usr/bin/python3", exec := fun _ => 0 } { base := "./data" } 3
    ["s1.py"] (by decide) (by decide) (by decide) (by decide)

/-! Section: Counting helper -/

/-- For duplicate-free lists, filtering one by membership in the other
counts the common elements, symmetrically. -/
theorem contains_filter_length_comm (l1 l2 : List Nat) (h1 : l1.Nodup)
    (h2 : l2.Nodup) :
    (l1.filter (fun a => l2.contains a)).length =
      (l2.filter (fun a => l1.contains a)).length := by
  have e1 : ∀ (u v : List Nat),
      u.filter (fun a => v.contains a) = u.filter (fun a => decide (a ∈ v)) := by
    intro u v
    apply List.filter_congr
    intro a _
    simp
  rw [e1 l1 l2, e1 l2 l1]
  rw [← List.toFinset_card_of_nodup (h1.filter _), ← List.toFinset_card_of_nodup (h2.filter _)]
  rw [List.toFinset_filter, List.toFinset_filter]
  simp only [decide_eq_true_eq, ← List.mem_toFinset]
  rw [Finset.filter_mem_eq_inter, Finset.filter_mem_eq_inter, Finset.inter_comm]

/-- C1: one `POST /api/runs` request creates exactly as many TestResult
rows as there are supplied script ids matching an existing Script row
(primary keys are unique; the supplied id list is duplicate-free), and
every created row carries the one coarse outcome: "passed" when the
subprocess exit code is zero, "failed" otherwise. -/
theorem C1_testresult_count_and_uniform_outcome (e : ExecEnv)
    (st : StorageService) (db : Db) (p : RunCreatePayload)
    (rid cat t1 t2 : Nat)
    (hdb : (db.scripts.map Script.id).Nodup) (hids : p.script_ids.Nodup) :
    (Runs_post e st db p rid cat t1 t2).results.length =
      (p.script_ids.filter (fun i => (db.scripts.map Script.id).contains i)).length ∧
    (∀ r ∈ (Runs_post e st db p rid cat t1 t2).results,
      r.outcome =
        (if (Runs_post e st db p rid cat t1 t2).code = 0 then "passed" else "failed")) := by
  constructor
  · have hlen : (Runs_post e st db p rid cat t1 t2).results.length =
        (db.scripts.filter (fun s => p.script_ids.contains s.id)).length := by
      simp [Runs_post]
    rw [hlen]
    have step1 : (db.scripts.map Script.id).filter (fun i => p.script_ids.contains i) =
        (db.scripts.filter (fun s => p.script_ids.contains s.id)).map Script.id := by
      rw [List.filter_map]
      rfl
    have step2 := contains_filter_length_comm (db.scripts.map Script.id)
      p.script_ids hdb hids
    rw [step1, List.length_map] at step2
    exact step2
  · intro r hr
    simp only [Runs_post, List.mem_map] at hr
    obtain ⟨sc, _, hsc⟩ := hr
    rw [← hsc]
    rfl

/-- C1 witness: a database with scripts 1 and 2, a request for ids
[2, 5]: exactly one TestResult row, with outcome "failed" under an
exit-code-1 oracle. -/
theorem C1_witness :
    (Runs_post { pythonExe := "py", exec := fun _ => 1 } { base := "./data" }
        { srsRows := [], testCases := [], scripts :=
            [{ id := 1, test_case_id := 1, language := "python",
               framework := "pytest-playwright", content := none,
               file_path := some "a.py" },
             { id := 2, test_case_id := 2, language := "python",
               framework := "pytest-playwright", content := none,
               file_path := some "b.py" }],
          runs := [], results := [] }
        { label := none, script_ids := [2, 5], triggered_by := "api" }
        1 0 10 20).results.length =
      ([2, 5].filter (fun i =>
        (([{ id := 1, test_case_id := 1, language := "python",
             framework := "pytest-playwright", content := none,
             file_path := some "a.py" },
           { id := 2, test_case_id := 2, language := "python",
             framework := "pytest-playwright", content := none,
             file_path := some "b.py" }] : List Script).map Script.id).contains i)).length ∧
    (∀ r ∈ (Runs_post { pythonExe := "py", exec := fun _ => 1 } { base := "./data" }
        { srsRows := [], testCases := [], scripts :=
            [{ id := 1, test_case_id := 1, language := "python",
               framework := "pytest-playwright", content := none,
               file_path := some "a.py" },
             { id := 2, test_case_id := 2, language := "python",
               framework := "pytest-playwright", content := none,
               file_path := some "b.py" }],
          runs := [], results := [] }
        { label := none, script_ids := [2, 5], triggered_by := "api" }
        1 0 10 20).results,
      r.outcome =
        (if (Runs_post { pythonExe := "py", exec := fun _ => 1 } { base := "./data" }
            { srsRows := [], testCases := [], scripts :=
                [{ id := 1, test_case_id := 1, language := "python",
                   framework := "pytest-playwright", content := none,
                   file_path := some "a.py" },
                 { id := 2, test_case_id := 2, language := "python",
                   framework := "pytest-playwright", content := none,
                   file_path := some "b.py" }],
              runs := [], results := [] }
            { label := none, script_ids := [2, 5], triggered_by := "api" }
            1 0 10 20).code = 0 then "passed" else "failed")) :=
  C1_testresult_count_and_uniform_outcome _ _ _ _ 1 0 10 20 (by decide) (by decide)

/-- C2: within one `POST /api/runs` request, the observable trace begins
with the Run created as "running" with started_at set, then the runner
invocation, then — immediately after the runner returns — the final
transition setting finished_at; the final status is "completed" exactly
when the exit code is zero and "failed" otherwise, so the status always
follows running → \x7bcompleted, failed\x7d. -/
theorem C2_run_status_state_machine (e : ExecEnv) (st : StorageService)
    (db : Db) (p : RunCreatePayload) (rid cat t1 t2 : Nat) :
    (Runs_post e st db p rid cat t1 t2).trace.take 3 =
      [RunEvent.createdRunning t1, RunEvent.invokedRunner,
       RunEvent.setFinal (Runs_post e st db p rid cat t1 t2).run.status t2] ∧
    (Runs_post e st db p rid cat t1 t2).run.status =
      (if (Runs_post e st db p rid cat t1 t2).code = 0 then "completed" else "failed") ∧
    (Runs_post e st db p rid cat t1 t2).run.started_at = some t1 ∧
    (Runs_post e st db p rid cat t1 t2).run.finished_at = some t2 ∧
    ((Runs_post e st db p rid cat t1 t2).run.status = "completed" ∨
      (Runs_post e st db p rid cat t1 t2).run.status = "failed") := by
  refine ⟨rfl, rfl, rfl, rfl, ?_⟩
  have h2 : (Runs_post e st db p rid cat t1 t2).run.status =
      (if (Runs_post e st db p rid cat t1 t2).code = 0 then "completed" else "failed") := rfl
  by_cases h : (Runs_post e st db p rid cat t1 t2).code = 0
  · left
    rw [h2, if_pos h]
  · right
    rw [h2, if_neg h]

/-- C10: unknown script ids in a `POST /api/runs` request are silently
ignored: the Run row is still appended, the TestResult rows are exactly
one per existing Script row whose id was requested (in database order),
and when no requested id matches any Script the run ends with zero
TestResult rows. -/
theorem C10_unknown_script_ids_ignored (e : ExecEnv) (st : StorageService)
    (db : Db) (p : RunCreatePayload) (rid cat t1 t2 : Nat) :
    (Runs_post e st db p rid cat t1 t2).db.runs =
      db.runs ++ [(Runs_post e st db p rid cat t1 t2).run] ∧
    (Runs_post e st db p rid cat t1 t2).results.map TestResult.script_id =
      (db.scripts.filter (fun sc => p.script_ids.contains sc.id)).map Script.id ∧
    ((∀ sc ∈ db.scripts, ¬ p.script_ids.contains sc.id) →
      (Runs_post e st db p rid cat t1 t2).results = []) := by
  refine ⟨rfl, ?_, ?_⟩
  · simp [Runs_post, List.map_map]
  · intro h
    have hfilter : db.scripts.filter (fun sc => p.script_ids.contains sc.id) = [] :=
      List.filter_eq_nil_iff.mpr (fun sc hsc => by simpa using h sc hsc)
    simp only [Runs_post]
    rw [hfilter]
    rfl

/-- C10 witness: a database whose only script has id 1, a request for the
unknown ids [2, 3]: the run is appended and there are zero result rows. -/
theorem C10_witness :
    (Runs_post { pythonExe := "py", exec := fun _ => 0 } { base := "./data" }
        { srsRows := [], testCases := [], scripts :=
            [{ id := 1, test_case_id := 1, language := "python",
               framework := "pytest-playwright", content := none,
               file_path := some "a.py" }],
          runs := [], results := [] }
        { label := none, script_ids := [2, 3], triggered_by := "api" }
        1 0 10 20).db.runs =
      [] ++ [(Runs_post { pythonExe := "py", exec := fun _ => 0 } { base := "./data" }
        { srsRows := [], testCases := [], scripts :=
            [{ id := 1, test_case_id := 1, language := "python",
               framework := "pytest-playwright", content := none,
               file_path := some "a.py" }],
          runs := [], results := [] }
        { label := none, script_ids := [2, 3], triggered_by := "api" }
        1 0 10 20).run] ∧
    (Runs_post { pythonExe := "py", exec := fun _ => 0 } { base := "./data" }
        { srsRows := [], testCases := [], scripts :=
            [{ id := 1, test_case_id := 1, language := "python",
               framework := "pytest-playwright", content := none,
               file_path := some "a.py" }],
          runs := [], results := [] }
        { label := none, script_ids := [2, 3], triggered_by := "api" }
        1 0 10 20).results = [] := by
  have h := C10_unknown_script_ids_ignored
    { pythonExe := "py", exec := fun _ => 0 } { base := "./data" }
    { srsRows := [], testCases := [], scripts :=
        [{ id := 1, test_case_id := 1, language := "python",
           framework := "pytest-playwright", content := none,
           file_path := some "a.py" }],
      runs := [], results := [] }
    { label := none, script_ids := [2, 3], triggered_by := "api" }
    1 0 10 20
  exact ⟨h.1, h.2.2 (by decide)⟩

/-! Section: Latest-run query lemmas -/

/-- A nonempty run table always has a latest run. -/
theorem latest_run_of_ne_nil (runs : List Run) (h : runs ≠ []) :
    ∃ r, latest_run runs = some r := by
  cases runs with
  | nil => exact absurd rfl h
  | cons a l =>
    cases hl : latest_run l with
    | none => exact ⟨a, by simp [latest_run, hl]⟩
    | some b =>
      by_cases hgt : b.created_at > a.created_at
      · exact ⟨b, by simp [latest_run, hl, hgt]⟩
      · exact ⟨a, by simp [latest_run, hl, hgt]⟩

/-- The latest run is a row of the table and its created_at is maximal. -/
theorem latest_run_mem_max (runs : List Run) (r : Run)
    (h : latest_run runs = some r) :
    r ∈ runs ∧ ∀ x ∈ runs, x.created_at ≤ r.created_at := by
  induction runs generalizing r with
  | nil => simp [latest_run] at h
  | cons a l ih =>
    cases hl : latest_run l with
    | none =>
      have hlnil : l = [] := by
        cases l with
        | nil => rfl
        | cons b m =>
          exfalso
          rcases latest_run_of_ne_nil (b :: m) (by simp) with ⟨x, hx⟩
          rw [hx] at hl
          cases hl
      subst hlnil
      simp [latest_run] at h
      subst h
      simp
    | some b =>
      have hb := ih b hl
      simp only [latest_run, hl] at h
      by_cases hgt : b.created_at > a.created_at
      · rw [if_pos hgt] at h
        have hrb : r = b := (Option.some.inj h).symm
        subst hrb
        refine ⟨List.mem_cons_of_mem a hb.1, ?_⟩
        intro x hx
        rcases List.mem_cons.mp hx with hxa | hxl
        · subst hxa
          exact le_of_lt hgt
        · exact hb.2 x hxl
      · rw [if_neg hgt] at h
        have hra : r = a := (Option.some.inj h).symm
        subst hra
        refine ⟨List.mem_cons_self r l, ?_⟩
        intro x hx
        rcases List.mem_cons.mp hx with hxa | hxl
        · subst hxa
          exact le_refl _
        · exact le_trans (hb.2 x hxl) (not_lt.mp hgt)

/-- C9: `GET /api/reports/latest` returns 404 when no Run exists;
otherwise it returns the summary of the most recently created Run — the
returned run is the latest-run query result, it belongs to the table, its
created_at is maximal, and passed/failed/total count that run's TestResult
rows by outcome. -/
theorem C9_reports_latest_summary (db : Db) :
    (db.runs = [] → ReportsLatest_get db = none) ∧
    (db.runs ≠ [] → ∃ r, latest_run db.runs = some r ∧ r ∈ db.runs ∧
      (∀ x ∈ db.runs, x.created_at ≤ r.created_at) ∧
      ReportsLatest_get db =
        some { run_id := r.id, status := r.status,
               passed := ((db.results.filter (fun tr => tr.run_id == r.id)).filter
                 (fun tr => tr.outcome == "passed")).length,
               failed := ((db.results.filter (fun tr => tr.run_id == r.id)).filter
                 (fun tr => tr.outcome == "failed")).length,
               total := (db.results.filter (fun tr => tr.run_id == r.id)).length }) := by
  constructor
  · intro h
    unfold ReportsLatest_get
    rw [h]
    rfl
  · intro h
    obtain ⟨r, hr⟩ := latest_run_of_ne_nil db.runs h
    obtain ⟨hmem, hmax⟩ := latest_run_mem_max db.runs r hr
    refine ⟨r, hr, hmem, hmax, ?_⟩
    unfold ReportsLatest_get
    rw [hr]

/-- The most recently created run of the C9 witness database. -/
def c9run2 : Run :=
  { id := 2, label := none, status := "failed", started_at := some 3,
    finished_at := some 4, triggered_by := some "api", created_at := 9 }

/-- A concrete database for the C9 witness: two runs (ids 1 and 2,
created at ticks 5 and 9) and three TestResult rows for run 2. -/
def c9Db : Db :=
  { srsRows := [], testCases := [], scripts := [],
    runs :=
      [{ id := 1, label := none, status := "completed", started_at := some 1,
         finished_at := some 2, triggered_by := some "api", created_at := 5 },
       c9run2],
    results :=
      [{ run_id := 2, script_id := 1, outcome := "passed", duration_ms := none,
         message := "", artifacts_path := none },
       { run_id := 2, script_id := 2, outcome := "failed", duration_ms := none,
         message := "", artifacts_path := none },
       { run_id := 1, script_id := 1, outcome := "passed", duration_ms := none,
         message := "", artifacts_path := none },
       { run_id := 2, script_id := 3, outcome := "passed", duration_ms := none,
         message := "", artifacts_path := none }] }

/-- C9 witness: the empty database yields 404, and `c9Db` yields the
summary of run 2 (the most recently created): 2 passed, 1 failed, 3 total. -/
theorem C9_witness :
    ReportsLatest_get emptyDb = none ∧
    ReportsLatest_get c9Db =
      some { run_id := 2, status := "failed", passed := 2, failed := 1, total := 3 } := by
  constructor
  · exact (C9_reports_latest_summary emptyDb).1 rfl
  · obtain ⟨r, hlr, _hmem, _hmax, hres⟩ :=
      (C9_reports_latest_summary c9Db).2 (by decide)
    have hcomp : latest_run c9Db.runs = some c9run2 := by decide
    rw [hcomp] at hlr
    have hr2 : r = c9run2 := (Option.some.inj hlr).symm
    subst hr2
    rw [hres]
    decide

end VV
